import Mathlib

/-!
Verification of the rate-limit-redis engine (lib/rate_limit_redis.js, with the
lib/index.js variants where noted) against its natural-language specification.

The shallow embedding below models:
  * the Redis-backed window counter for a single resolved key: the store holds
    an optional value (a canonical integer written by SETEX/INCR, or an
    externally corrupted value classified by how JSON.parse and INCR treat
    it), while the key's time-to-live is an input supplied by the
    environment at each call (the reply PTTL would give at that instant);
  * the pure helpers `getKey`, `getTimeLeft` and the two route matchers
    (the one in lib/rate_limit_redis.js and the one in the lib/index.js
    variant);
  * the `process` decision procedure of lib/rate_limit_redis.js.

Promise behaviour is made explicit: an operation that can reject (or whose
promise can remain pending forever) returns an `Option`/`PromiseResult`.
JavaScript truthiness of the values that actually flow through the code is
modelled exactly: `null`/`undefined` and the number 0 are falsy, every other
number (including -1 and -2) is truthy, the empty string is falsy.
-/

namespace RateLimitRedis

/-- JavaScript `a || d` for an optional string `a` (absent and `""` are falsy). -/
def jsOrString (v : Option String) (d : String) : String :=
  match v with
  | none => d
  | some s => if s = "" then d else s

/-- JavaScript `a || b` for two optional strings (absent and `""` are falsy). -/
def jsOrStr (a b : Option String) : Option String :=
  match a with
  | some s => if s = "" then b else some s
  | none => b

/-- Template-literal interpolation of a possibly absent string:
`${x}` renders `undefined` as the text "undefined". -/
def jsInterp (v : Option String) : String :=
  match v with
  | none => "undefined"
  | some s => s

/-- `Math.ceil (a / b)` on integers, for a positive divisor `b`
(`ceil (a/b) = -floor (-a/b)`). -/
def ceilDivInt (a b : Int) : Int := -((-a).ediv b)

/-- A value stored at the key, classified by how its two readers —
`JSON.parse` in `getRequestCount` and the store's INCR primitive — treat it.
`num n` is a canonical integer as written by PSETEX/INCR: `JSON.parse`
yields the integer `n` and INCR increments it.  The other classes are
externally corrupted values, by observable behaviour:
`intLike n` is a value that `JSON.parse` accepts and that behaves as the
integer `n` at every use site of the count (truthiness `n != 0`, `++`,
`>=`, subtraction) but is not a canonical Redis integer string, so INCR
rejects it — e.g. `" 1"`, `"1e3"`, `"1.0"` (all read as 1), `"true"`
(coerces to 1 under `++`/`>=`/`-`), `"false"` (0, falsy);
`nonIntNum f` is a value `JSON.parse` reads as a non-integer number `x`
with floor `f` (so `f < x < f + 1`; e.g. `"1.5"` is `nonIntNum 1`), also
rejected by INCR — a non-integer double always has magnitude below 2^52,
where the `+1`, `>=` and subtraction steps below are exact;
`nullLike` is a value `JSON.parse` reads as `null` (e.g. `"null"`);
`unparsable` is a value on which `JSON.parse` throws (e.g. `"abc"`),
also rejected by INCR.
JSON strings, arrays and objects (whose arithmetic runs through NaN and
string coercion) are outside the modelled value domain. -/
inductive StoredVal where
  | num (n : Int)
  | intLike (n : Int)
  | nonIntNum (f : Int)
  | nullLike
  | unparsable
deriving DecidableEq, Repr

/-- A JavaScript number held in `requestCount`: an integer, or a
non-integer number represented by its floor (`nonInt f` is some `x` with
`f < x < f + 1`). -/
inductive JsCount where
  | int (n : Int)
  | nonInt (f : Int)
deriving DecidableEq, Repr

/-- `!requestCount` for a number: only 0 is falsy (a non-integer number is
never 0). -/
def jsCountFalsy : JsCount → Bool
  | .int n => n = 0
  | .nonInt _ => false

/-- `requestCount++`: adding 1 keeps the floor distance (`x + 1` has floor
`f + 1`). -/
def jsCountInc : JsCount → JsCount
  | .int n => .int (n + 1)
  | .nonInt f => .nonInt (f + 1)

/-- `limit - requestCount` for an integer `limit`: for non-integer `x` with
floor `f`, `limit - x` is non-integer with floor `limit - f - 1`. -/
def jsCountSubFrom (limit : Int) : JsCount → JsCount
  | .int n => .int (limit - n)
  | .nonInt f => .nonInt (limit - f - 1)

/-- `Math.max(v, 0)`: a non-integer `x` with floor `f` satisfies
`max x 0 = x` iff `0 ≤ f` (then still non-integer with floor `f`), and
`max x 0 = 0` otherwise. -/
def jsCountMax0 : JsCount → JsCount
  | .int n => .int (max n 0)
  | .nonInt f => if 0 ≤ f then .nonInt f else .int 0

/-- `requestCount >= limit` for an integer `limit`: a non-integer `x` with
floor `f` satisfies `x ≥ limit` iff `limit ≤ f`. -/
def jsCountGe (c : JsCount) (limit : Int) : Bool :=
  match c with
  | .int n => limit ≤ n
  | .nonInt f => limit ≤ f

/-- The integer carried by a count.  Used only where the enclosing branch
forces the count to be an integer (`response.remaining` in the 429 branch,
where `requestCount ≥ limit` makes `Math.max(limit - requestCount, 0) = 0`
whenever the count is non-integer, and in the admitted branch, reached only
with a canonical integer store value). -/
def jsCountToInt : JsCount → Int
  | .int n => n
  | .nonInt f => f

/-- The shared store, restricted to the single key a request resolves to.
The key's remaining time-to-live is not part of this state: it is a
time-dependent reply of the store and enters `process` as an input. -/
structure Store where
  value : Option StoredVal
deriving DecidableEq, Repr

/-- Outcome of a JavaScript promise: resolved with a value, rejected, or
never settled (neither `resolve` nor `reject` is ever called). -/
inductive PromiseResult (α : Type) where
  | resolved (a : α)
  | rejected
  | pending
deriving DecidableEq, Repr

/-- A JavaScript value that `incrementRequestCount` in the lib/index.js
variant can resolve with: a number or a boolean. -/
inductive JsValue where
  | num (n : Int)
  | bool (b : Bool)
deriving DecidableEq, Repr

/-- A custom-route rule (`options.customRoutes[i]`).  `method = none` models a
rule object without a `method` property (defaulted to `'get'` during
matching); `limit`/`timeframe` are the optional overrides. -/
structure Route where
  path : String
  method : Option String
  ignore : Bool
  limit : Option Int
  timeframe : Option Int
deriving DecidableEq, Repr

/-- The request fields `process` reads.  `url`/`originalUrl` are absent when
the request carries no path information; `method` is modelled as a string
(requests without a method are outside the model). -/
structure Request where
  ip : Option String
  url : Option String
  originalUrl : Option String
  method : String
deriving DecidableEq, Repr

/-- Engine configuration, as set by the constructor. -/
structure Config where
  timeframe : Int
  limit : Int
  ns : String
  whitelist : List String
  customRoutes : List Route
deriving DecidableEq, Repr

/-- The response object `process` resolves with.  Fields that a bare
(whitelisted / ignored) response does not carry are `Option`s;
`error` records whether `response.error` was set. -/
structure Response where
  status : Nat
  limit : Option Int
  timeframe : Option Int
  remaining : Option Int
  retry : Option Int
  error : Bool
deriving DecidableEq, Repr

/-- `getKey(ip, append)` of lib/rate_limit_redis.js (identical in the
lib/index.js variant): `let ns = ip || 'Invalid IP'`; if the configured
namespace is non-empty, `ns = namespace + ':' + ip` (template interpolation of
`ip`, not of the sentinel); a non-empty `append` adds `':' + append`. -/
def getKey (ns : String) (ip : Option String) (append : Option String) : String :=
  let base := jsOrString ip "Invalid IP"
  let base := if ns ≠ "" then ns ++ ":" ++ jsInterp ip else base
  match append with
  | some a => if a ≠ "" then base ++ ":" ++ a else base
  | none => base

/-- `getTimeLeft(key, defaultTime)` of lib/rate_limit_redis.js, as a function
of the store's PTTL reply: `resolve(res || defaultTime)`.  The only falsy
number is 0, so the sentinels -1 (no expiry) and -2 (no such key) are
returned as they are. -/
def getTimeLeft (res defaultTime : Int) : Int :=
  if res = 0 then defaultTime else res

/-- `getTimeLeft(key, defaultTime)` of the lib/index.js variant, as a function
of the store's TTL reply (seconds): `return res*1000 || defaultTime`. -/
def getTimeLeftIdx (res defaultTime : Int) : Int :=
  if res * 1000 = 0 then defaultTime else res * 1000

/-- `setNewRequestCount(key, timeframe)`: PSETEX key (timeframe*1000) 1,
resolving `res === 'OK'`.  Rejects (`none`) when the store is unreachable.
The new time-to-live is not tracked in `Store` (see `Store`). -/
def setNewRequestCount (storeOk : Bool) (_st : Store) (_timeframe : Int) :
    Option (Bool × Store) :=
  if storeOk then some (true, ⟨some (.num 1)⟩) else none

/-- `getRequestCount(key)`: GET followed by `JSON.parse`.  An absent key
GETs null and parses to null (`.ok none`), as does a `nullLike` value; an
integer-valued or non-integer-number value parses to the corresponding
count; on an `unparsable` value `JSON.parse` throws and the promise rejects
(`.error`).  A store failure also rejects. -/
def getRequestCount (storeOk : Bool) (st : Store) : Except Unit (Option JsCount) :=
  if storeOk then
    match st.value with
    | none => .ok none
    | some (.num n) => .ok (some (.int n))
    | some (.intLike n) => .ok (some (.int n))
    | some (.nonIntNum f) => .ok (some (.nonInt f))
    | some .nullLike => .ok none
    | some .unparsable => .error ()
  else .error ()

/-- The store's INCR primitive: creates an absent key at 1, increments a
canonical integer value, and errors ("value is not an integer or out of
range") on every other stored value — including values that `JSON.parse`
accepts, such as `" 1"`, `"1e3"`, `"1.5"` or `"true"`. -/
def redisIncr (st : Store) : Except Unit (Int × Store) :=
  match st.value with
  | none => .ok (1, ⟨some (.num 1)⟩)
  | some (.num n) => .ok (n + 1, ⟨some (.num (n + 1))⟩)
  | some (.intLike _) => .error ()
  | some (.nonIntNum _) => .error ()
  | some .nullLike => .error ()
  | some .unparsable => .error ()

/-- `incrementRequestCount(key)` of lib/rate_limit_redis.js.  On an INCR
error the promise rejects.  On a falsy INCR reply (`!res`, i.e. the reply 0)
the callback runs `return this.setNewRequestCount(key)`: the window is
recreated, but neither `resolve` nor `reject` of the outer promise is ever
called, so the promise stays `pending` forever.  Otherwise it resolves with
the new count. -/
def incrementRequestCount (storeOk : Bool) (st : Store) (timeframe : Int) :
    PromiseResult Int × Store :=
  if storeOk then
    match redisIncr st with
    | .error _ => (.rejected, st)
    | .ok (res, st') =>
      if res = 0 then
        match setNewRequestCount storeOk st' timeframe with
        | some (_, st'') => (.pending, st'')
        | none => (.pending, st')
      else (.resolved res, st')
  else (.rejected, st)

/-- `incrementRequestCount(key)` of the lib/index.js variant.  On a falsy
INCR reply it returns `this.setNewRequestCount(key)`, so the promise resolves
with the boolean success flag of the SET, not with a count; otherwise it
resolves with the new count. -/
def incrementRequestCountIdx (storeOk : Bool) (st : Store) (timeframe : Int) :
    Option (JsValue × Store) :=
  if storeOk then
    match redisIncr st with
    | .error _ => none
    | .ok (res, st') =>
      if res = 0 then
        match setNewRequestCount storeOk st' timeframe with
        | some (ok, st'') => some (.bool ok, st'')
        | none => none
      else some (.num res, st')
  else none

/-- JavaScript `s.toLowerCase()`, character by character. -/
def jsToLower (s : String) : String := String.mk (s.data.map Char.toLower)

/-- The custom-route predicate of lib/rate_limit_redis.js (the callback of
`customRoutes.find`, after the in-place defaulting of a missing `method` to
'get').  Note the JavaScript precedence `a || b && c && d  =  a || (b && c
&& d)`: a rule whose path equals `request.url` matches with no method check;
the method is only compared on the `request.originalUrl` alternative. -/
def matchRLR (route : Route) (req : Request) : Bool :=
  (req.url == some route.path) ||
    ((req.originalUrl == some route.path) &&
      (route.method.getD "get" != "") &&
      (jsToLower (route.method.getD "get") == jsToLower req.method))

/-- JavaScript `s.slice(0, -1)`: drop the final character. -/
def jsSliceDropLast (s : String) : String := String.mk s.data.dropLast

/-- JavaScript `s.endsWith('/')`. -/
def endsWithSlash (s : String) : Bool := s.data.getLast? == some '/'

/-- The custom-route predicate of the lib/index.js variant: the request path
is `request.url || request.originalUrl`; when non-empty, one trailing slash
is stripped from it (the stripping of the rule's own path is commented out in
the source); `samePath` requires equality with the rule's path, `sameMethod`
compares methods case-insensitively, and the rule matches iff both hold. -/
def matchIdx (route : Route) (req : Request) : Bool :=
  let reqPath := jsOrStr req.url req.originalUrl
  let samePath : Bool :=
    match reqPath with
    | none => false
    | some p =>
      if p = "" then false
      else
        let p := if endsWithSlash p then jsSliceDropLast p else p
        route.path == p
  let sameMethod : Bool :=
    jsToLower (route.method.getD "get") == jsToLower req.method
  samePath && sameMethod

/-- `this.whitelist.includes(request.ip)` guarded by
`Array.isArray(this.whitelist) && this.whitelist.length` (membership in a
non-empty list implies the guard, an absent configuration is the empty
list, and an absent `request.ip` is in no list of strings). -/
def whitelisted (wl : List String) (req : Request) : Bool :=
  match req.ip with
  | some ip => wl.contains ip
  | none => false

/-- The response of a whitelisted or ignored request: only a status. -/
def bareResponse : Response := ⟨200, none, none, none, none, false⟩

/-- The window-creation tail of `process`: `setNewRequestCount(key,
timeframe)` (propagating a rejection), then resolve with
`remaining = limit - 1`. -/
def createAndRespond (limit timeframe : Int) (storeOk : Bool) (st : Store) :
    Option (Response × Store) :=
  match setNewRequestCount storeOk st timeframe with
  | none => none
  | some (_, st') =>
    some (⟨200, some limit, some timeframe, some (limit - 1), none, false⟩, st')

/-- The counting part of `process` (everything after whitelist and
custom-route handling), with the effective `limit`/`timeframe` resolved.
`hasClient` models the `!this.redisClient` check; `pttl` is the store's
PTTL reply for the key at this instant.  `none` covers both a rejected
promise and the never-settling increment fallback. -/
def processCount (limit timeframe : Int) (hasClient storeOk : Bool)
    (pttl : Int) (st : Store) : Option (Response × Store) :=
  if hasClient = false then none
  else
    -- try { getRequestCount } catch { requestCount = null }
    let requestCount : Option JsCount :=
      match getRequestCount storeOk st with
      | .ok v => v
      | .error _ => none
    match requestCount with
    | none => createAndRespond limit timeframe storeOk st
    | some rc =>
      if jsCountFalsy rc then
        -- `!requestCount` is also true for the number 0
        createAndRespond limit timeframe storeOk st
      else
        let c := jsCountInc rc
        let remaining := jsCountMax0 (jsCountSubFrom limit c)
        if jsCountGe c limit then
          if storeOk = false then none  -- getTimeLeft rejects
          else
            let ttl := getTimeLeft pttl timeframe
            if ttl ≤ 0 then createAndRespond limit timeframe storeOk st
            else
              some (⟨429, some limit, some timeframe, some (jsCountToInt remaining),
                some (ceilDivInt ttl 1000), true⟩, st)
        else
          match incrementRequestCount storeOk st timeframe with
          | (.resolved _, st') =>
            some (⟨200, some limit, some timeframe, some (jsCountToInt remaining), none,
              false⟩, st')
          | (.rejected, _) => none
          | (.pending, _) => none

/-- `process(request)` of lib/rate_limit_redis.js.  Key resolution
(`getKey`) is not re-modelled here: `st` is the state of the single key the
request resolves to.  The whitelist short-circuit and a matched
`ignore` rule resolve with the bare response before the redis-client check
and before any store access. -/
def process (cfg : Config) (req : Request) (hasClient storeOk : Bool)
    (pttl : Int) (st : Store) : Option (Response × Store) :=
  if whitelisted cfg.whitelist req then some (bareResponse, st)
  else
    match cfg.customRoutes.find? (fun r => matchRLR r req) with
    | some custom =>
      if custom.ignore then some (bareResponse, st)
      else
        processCount (custom.limit.getD cfg.limit)
          (custom.timeframe.getD cfg.timeframe) hasClient storeOk pttl st
    | none => processCount cfg.limit cfg.timeframe hasClient storeOk pttl st

/-- A configuration with no whitelist and no custom routes. -/
def defaultConfig (limit timeframe : Int) : Config :=
  ⟨timeframe, limit, "rate-limit", [], []⟩

/-- A request with an ip address and no path information. -/
def plainReq (ip : String) : Request := ⟨some ip, none, none, "GET"⟩

/-- The result of the (i+1)-st of a sequence of `process` calls with
unchanged identity starting from a key with no prior window; `f j` is the
store's PTTL reply at the (j+1)-st call. -/
def callSeq (limit timeframe : Int) (ip : String) (f : Nat → Int) :
    Nat → Option (Response × Store)
  | 0 => process (defaultConfig limit timeframe) (plainReq ip) true true (f 0) ⟨none⟩
  | n + 1 =>
    match callSeq limit timeframe ip f n with
    | some (_, st) =>
      process (defaultConfig limit timeframe) (plainReq ip) true true (f (n + 1)) st
    | none => none

/-! ## Helper lemmas -/

/-- With no whitelist and no custom routes, `process` is the counting path. -/
lemma process_default (limit timeframe : Int) (ip : String) (hasClient storeOk : Bool)
    (p : Int) (st : Store) :
    process (defaultConfig limit timeframe) (plainReq ip) hasClient storeOk p st =
      processCount limit timeframe hasClient storeOk p st := by
  simp [process, defaultConfig, plainReq, whitelisted]

/-- A positive PTTL reply is returned unchanged. -/
lemma getTimeLeft_pos (p timeframe : Int) (hp : 0 < p) : getTimeLeft p timeframe = p := by
  unfold getTimeLeft
  rw [if_neg (by omega)]

/-- Counting path on a key with no prior window: create and admit. -/
lemma processCount_absent (limit timeframe p : Int) :
    processCount limit timeframe true true p ⟨none⟩ =
      some (⟨200, some limit, some timeframe, some (limit - 1), none, false⟩,
        ⟨some (.num 1)⟩) := rfl

/-- Counting path on a stored value on which `JSON.parse` throws: the
rejection is caught, the window is recreated, and the request is admitted. -/
lemma processCount_unparsable (limit timeframe p : Int) :
    processCount limit timeframe true true p ⟨some .unparsable⟩ =
      some (⟨200, some limit, some timeframe, some (limit - 1), none, false⟩,
        ⟨some (.num 1)⟩) := rfl

/-- Counting path strictly below the limit: increment and admit. -/
lemma processCount_under (limit timeframe p c : Int) (hc0 : c ≠ 0) (hcm : c + 1 ≠ 0)
    (hlim : ¬ limit ≤ c + 1) :
    processCount limit timeframe true true p ⟨some (.num c)⟩ =
      some (⟨200, some limit, some timeframe, some (max (limit - (c + 1)) 0), none, false⟩,
        ⟨some (.num (c + 1))⟩) := by
  simp [processCount, getRequestCount, jsCountFalsy, jsCountInc, jsCountSubFrom,
    jsCountMax0, jsCountGe, jsCountToInt, hc0, hlim, incrementRequestCount, redisIncr,
    setNewRequestCount, hcm]

/-- Counting path at or over the limit with a positive PTTL: reject and
leave the store untouched. -/
lemma processCount_over (limit timeframe p c : Int) (hc0 : c ≠ 0)
    (hlim : limit ≤ c + 1) (hp : 0 < p) :
    processCount limit timeframe true true p ⟨some (.num c)⟩ =
      some (⟨429, some limit, some timeframe, some (max (limit - (c + 1)) 0),
        some (ceilDivInt p 1000), true⟩, ⟨some (.num c)⟩) := by
  simp [processCount, getRequestCount, jsCountFalsy, jsCountInc, jsCountSubFrom,
    jsCountMax0, jsCountGe, jsCountToInt, hc0, hlim, getTimeLeft_pos p timeframe hp,
    (show ¬ p ≤ 0 by omega)]

/-- `ceilDivInt · 1000` is monotone. -/
lemma ceilDivInt_mono (a b : Int) (h : a ≤ b) : ceilDivInt a 1000 ≤ ceilDivInt b 1000 := by
  unfold ceilDivInt
  have h' : Int.ediv (-b) 1000 ≤ Int.ediv (-a) 1000 :=
    Int.ediv_le_ediv (by norm_num) (by omega)
  omega

/-! ## Claim theorems -/

/-- C2 (code bug): when the INCR reply is falsy ("no prior value"; the store
holds -1, so the reply is 0), `incrementRequestCount` does recreate the
window, but in lib/rate_limit_redis.js the callback returns
`this.setNewRequestCount(key)` without ever calling `resolve` or `reject`,
so the promise stays pending forever instead of resolving with the count 1;
in the lib/index.js variant the promise resolves with the boolean success
flag of the SET (`true`), not with the integer 1.  On a truthy reply both
resolve with the new integer count, as the claim states. -/
theorem c2_increment_fallback_bug :
    incrementRequestCount true ⟨some (.num (-1))⟩ 60 = (.pending, ⟨some (.num 1)⟩) ∧
    incrementRequestCountIdx true ⟨some (.num (-1))⟩ 60 = some (.bool true, ⟨some (.num 1)⟩) ∧
    incrementRequestCount true ⟨some (.num 2)⟩ 60 = (.resolved 3, ⟨some (.num 3)⟩) := by
  decide

/-- C3 counterexample: for the sentinel replies -1 ("no TTL") and -2 ("key
absent") `getTimeLeft` does not return the default duration (here 60): -1 and
-2 are truthy in JavaScript, so `res || defaultTime` passes them through. -/
theorem c3_sentinel_cex : getTimeLeft (-1) 60 ≠ 60 ∧ getTimeLeft (-2) 60 ≠ 60 := by
  decide

/-- C3 amended: `getTimeLeft` returns the store's reply whenever it is
nonzero — the sentinels -1 and -2 included, passed through unchanged in
lib/rate_limit_redis.js and scaled by 1000 in the lib/index.js variant — and
returns the default duration only when the reply is exactly 0. -/
theorem c3_time_left (r d : Int) (hr : r ≠ 0) :
    getTimeLeft r d = r ∧ getTimeLeft 0 d = d ∧
    getTimeLeftIdx r d = r * 1000 ∧ getTimeLeftIdx 0 d = d := by
  have h1000 : r * 1000 ≠ 0 := by
    intro h
    omega
  unfold getTimeLeft getTimeLeftIdx
  exact ⟨if_neg hr, if_pos rfl, if_neg h1000, by norm_num⟩

/-- C3 witness: the amended statement at the sentinel reply -2. -/
theorem c3_time_left_witness :
    getTimeLeft (-2) 60 = -2 ∧ getTimeLeft 0 60 = 60 ∧
    getTimeLeftIdx (-2) 60 = (-2) * 1000 ∧ getTimeLeftIdx 0 60 = 60 :=
  c3_time_left (-2) 60 (by decide)

/-- C4 counterexample: with the (always non-empty by default) namespace
configured and an absent client address, the key is the interpolation
`namespace:undefined`, not a key built from the sentinel "Invalid IP": the
namespace branch re-derives the key from `ip`, discarding the sentinel. -/
theorem c4_key_sentinel_cex :
    getKey "rate-limit" none none = "rate-limit:undefined" ∧
    getKey "rate-limit" none none ≠ "rate-limit:Invalid IP" := by
  decide

/-- C4 amended: a key is always produced, but the sentinel "Invalid IP" is
used only when the namespace is empty; with a non-empty namespace the key is
`namespace:address`, which for an absent address is the literal
`namespace:undefined`.  A non-empty append suffix is appended as
`:suffix`. -/
theorem c4_key_resolution (ns a ap : String) (hns : ns ≠ "") (ha : a ≠ "")
    (hap : ap ≠ "") :
    getKey "" none none = "Invalid IP" ∧
    getKey "" (some "") none = "Invalid IP" ∧
    getKey "" (some a) none = a ∧
    getKey ns (some a) none = ns ++ ":" ++ a ∧
    getKey ns none none = ns ++ ":" ++ "undefined" ∧
    getKey ns (some a) (some ap) = ns ++ ":" ++ a ++ ":" ++ ap ∧
    getKey ns none (some ap) = ns ++ ":" ++ "undefined" ++ ":" ++ ap := by
  simp [getKey, jsOrString, jsInterp, hns, ha, hap]

/-- C4 witness: the amended statement at concrete inputs. -/
theorem c4_key_resolution_witness :
    getKey "rate-limit" (some "1.2.3.4") none = "rate-limit" ++ ":" ++ "1.2.3.4" ∧
    getKey "" none none = "Invalid IP" ∧
    getKey "rate-limit" none none = "rate-limit" ++ ":" ++ "undefined" := by
  have h := c4_key_resolution "rate-limit" "1.2.3.4" "get:/a" (by decide) (by decide)
    (by decide)
  exact ⟨h.2.2.2.1, h.1, h.2.2.2.2.1⟩

/-- C5 (code bug): in lib/rate_limit_redis.js the rule predicate is
`route.path === request.url || route.path === request.originalUrl &&
route.method && methodsEqual`, and `&&` binds tighter than `||`, so a rule
whose path equals `request.url` is selected with no method check at all: a
GET request to /a is matched — and here even ignored — by a POST-only rule.
The lib/index.js variant computes `samePath && sameMethod` and rejects the
same input, which is the claimed (and documented) behaviour. -/
theorem c5_path_only_match_bug :
    matchRLR ⟨"/a", some "post", true, none, none⟩
      ⟨some "9.9.9.9", some "/a", none, "get"⟩ = true ∧
    matchIdx ⟨"/a", some "post", true, none, none⟩
      ⟨some "9.9.9.9", some "/a", none, "get"⟩ = false ∧
    process ⟨60, 100, "rate-limit", [], [⟨"/a", some "post", true, none, none⟩]⟩
      ⟨some "9.9.9.9", some "/a", none, "get"⟩ true true 5 ⟨none⟩ =
      some (bareResponse, ⟨none⟩) := by
  decide

/-- C6 counterexample: a request to /path does not match a rule for /path/
in the lib/index.js matcher — only the request's trailing slash is stripped
(the stripping of the rule's path is commented out in the source), so the
claimed two-sided equivalence fails in this direction. -/
theorem c6_slash_cex :
    matchIdx ⟨"/path/", some "get", false, none, none⟩
      ⟨some "9.9.9.9", some "/path", none, "get"⟩ = false := by
  decide

/-- C6 amended: exact-path equality in the lib/index.js matcher strips one
trailing slash from the request path only, the rule's path being compared
verbatim: for any rule path not itself ending in a slash, a request to
`path + "/"` matches a rule for `path`, while a request to `path` does not
match a rule for `path + "/"`. -/
theorem c6_slash_request_only (p m : String) (hp : p.data.getLast? ≠ some '/')
    (hne : p ≠ "") (ig : Bool) (lo tf : Option Int) (ipo ou : Option String) :
    matchIdx ⟨p, some m, ig, lo, tf⟩ ⟨ipo, some (p ++ "/"), ou, m⟩ = true ∧
    matchIdx ⟨p ++ "/", some m, ig, lo, tf⟩ ⟨ipo, some p, ou, m⟩ = false := by
  have hne1 : (p ++ "/") ≠ "" := by
    intro h
    have h' : (p ++ "/").data = ("" : String).data := by rw [h]
    simp at h'
  have hends : endsWithSlash (p ++ "/") = true := by
    simp [endsWithSlash]
  have hdrop : jsSliceDropLast (p ++ "/") = p := by
    apply String.ext
    simp [jsSliceDropLast]
  have hnoslash : endsWithSlash p = false := by
    simp [endsWithSlash, hp]
  have hppne : p ++ "/" ≠ p := by
    intro h
    have h' : (p ++ "/").data = p.data := by rw [h]
    simp at h'
  constructor
  · simp [matchIdx, jsOrStr, hne1, hends, hdrop]
  · simp [matchIdx, jsOrStr, hne, hnoslash, hppne]

/-- C6 witness: the amended statement for the paths /path and /path/. -/
theorem c6_slash_request_only_witness :
    matchIdx ⟨"/path", some "get", false, none, none⟩
      ⟨none, some ("/path" ++ "/"), none, "get"⟩ = true ∧
    matchIdx ⟨"/path" ++ "/", some "get", false, none, none⟩
      ⟨none, some "/path", none, "get"⟩ = false :=
  c6_slash_request_only "/path" "get" (by decide) (by decide) false none none none none

/-- C7: a whitelisted client address, and a request whose first matching
custom route carries `ignore = true`, resolve with the bare
`{status: 200}` response — no limit, remaining or retry field — and the
store state of the key is left untouched, so any number of such calls
leaves the counter uncreated and unincremented. -/
theorem c7_whitelist_ignore_bypass (timeframe limit : Int) (ns : String)
    (wl : List String) (routes : List Route) (req : Request)
    (hasClient storeOk : Bool) (p : Int) (st : Store)
    (h : whitelisted wl req = true ∨
      ∃ r, routes.find? (fun r => matchRLR r req) = some r ∧ r.ignore = true) :
    process ⟨timeframe, limit, ns, wl, routes⟩ req hasClient storeOk p st =
      some (bareResponse, st) := by
  rcases h with hw | ⟨r, hr, hi⟩
  · simp [process, hw]
  · by_cases hw : whitelisted wl req
    · simp [process, hw]
    · simp [process, hw, hr, hi]

/-- C7 witness: a request ignored by a matching `ignore` rule, on a store
already holding a counter, resolves bare and leaves the counter at 7. -/
theorem c7_whitelist_ignore_bypass_witness :
    process ⟨60, 100, "rate-limit", ["192.168.20.20"], [⟨"/ig", some "get", true, none, none⟩]⟩
      ⟨some "9.9.9.9", some "/ig", none, "GET"⟩ true true 5 ⟨some (.num 7)⟩ =
      some (bareResponse, ⟨some (.num 7)⟩) :=
  c7_whitelist_ignore_bypass 60 100 "rate-limit" ["192.168.20.20"]
    [⟨"/ig", some "get", true, none, none⟩] ⟨some "9.9.9.9", some "/ig", none, "GET"⟩
    true true 5 ⟨some (.num 7)⟩
    (Or.inr ⟨⟨"/ig", some "get", true, none, none⟩, by decide, rfl⟩)

/-- C8: at or over the limit (stored count `c` with `limit ≤ c + 1`) and
with positive time remaining, `process` rejects with status 429 and
`remaining = 0`, the stored counter is not mutated (the store state is
returned unchanged, so repeated rejected calls see the same state), and as
the reported time-to-live decays from `p₁` to `p₂ ≤ p₁` the retry value
`ceil(ttl/1000)` is monotonically non-increasing. -/
theorem c8_rejected_frame (limit timeframe c p₁ p₂ : Int) (ip : String)
    (hc : c ≠ 0) (hl : limit ≤ c + 1) (hp : 0 < p₂) (hpp : p₂ ≤ p₁) :
    process (defaultConfig limit timeframe) (plainReq ip) true true p₁ ⟨some (.num c)⟩ =
      some (⟨429, some limit, some timeframe, some 0, some (ceilDivInt p₁ 1000), true⟩,
        ⟨some (.num c)⟩) ∧
    process (defaultConfig limit timeframe) (plainReq ip) true true p₂ ⟨some (.num c)⟩ =
      some (⟨429, some limit, some timeframe, some 0, some (ceilDivInt p₂ 1000), true⟩,
        ⟨some (.num c)⟩) ∧
    ceilDivInt p₂ 1000 ≤ ceilDivInt p₁ 1000 := by
  have hmax : max (limit - (c + 1)) 0 = 0 := by omega
  refine ⟨?_, ?_, ceilDivInt_mono p₂ p₁ hpp⟩
  · rw [process_default, processCount_over limit timeframe p₁ c hc hl (by omega), hmax]
  · rw [process_default, processCount_over limit timeframe p₂ c hc hl hp, hmax]

/-- C8 witness: limit 3, stored count 2, time-to-live decaying from 2500ms
to 1500ms. -/
theorem c8_rejected_frame_witness :
    process (defaultConfig 3 60) (plainReq "1.2.3.4") true true 2500 ⟨some (.num 2)⟩ =
      some (⟨429, some 3, some 60, some 0, some (ceilDivInt 2500 1000), true⟩,
        ⟨some (.num 2)⟩) ∧
    process (defaultConfig 3 60) (plainReq "1.2.3.4") true true 1500 ⟨some (.num 2)⟩ =
      some (⟨429, some 3, some 60, some 0, some (ceilDivInt 1500 1000), true⟩,
        ⟨some (.num 2)⟩) ∧
    ceilDivInt 1500 1000 ≤ ceilDivInt 2500 1000 :=
  c8_rejected_frame 3 60 2 2500 1500 "1.2.3.4" (by decide) (by decide) (by decide)
    (by decide)

/-- C9 counterexample: the stored value "1.5" — which fails to parse as an
integer, `JSON.parse` reading it as the non-integer number 1.5 (floor 1) —
is NOT treated as absent: `getRequestCount` resolves the truthy count 1.5,
`requestCount++` gives 2.5 (< limit 5), and the subsequent Redis INCR on
the non-canonical value "1.5" errors, so the promise chain rejects and
`process` propagates a processing error (no response at all) instead of
the claimed recreated window with status 200 and remaining = limit - 1. -/
theorem c9_nonint_cex :
    getRequestCount true ⟨some (.nonIntNum 1)⟩ = .ok (some (.nonInt 1)) ∧
    process (defaultConfig 5 60) (plainReq "9.9.9.9") true true 1000
      ⟨some (.nonIntNum 1)⟩ = none :=
  ⟨rfl, rfl⟩

/-- C9 amended: a stored value is treated as absent and self-healed — the
window recreated at count 1 and the call resolving with status 200 and
`remaining = limit - 1`, no processing error — exactly when `JSON.parse`
throws on it (the rejection is caught in lib/rate_limit_redis.js), when it
parses to null, or when it parses to a falsy value such as false or 0.  A
corrupted value that `JSON.parse` reads as a truthy non-integer number
(such as "1.5") is instead read as a count, and the Redis INCR that
follows below the limit fails on it, so `process` rejects with a
processing error. -/
theorem c9_malformed_selfheal (limit timeframe p : Int) (ip : String) :
    process (defaultConfig limit timeframe) (plainReq ip) true true p
        ⟨some .unparsable⟩ =
      some (⟨200, some limit, some timeframe, some (limit - 1), none, false⟩,
        ⟨some (.num 1)⟩) ∧
    process (defaultConfig limit timeframe) (plainReq ip) true true p
        ⟨some .nullLike⟩ =
      some (⟨200, some limit, some timeframe, some (limit - 1), none, false⟩,
        ⟨some (.num 1)⟩) ∧
    process (defaultConfig limit timeframe) (plainReq ip) true true p
        ⟨some (.intLike 0)⟩ =
      some (⟨200, some limit, some timeframe, some (limit - 1), none, false⟩,
        ⟨some (.num 1)⟩) := by
  refine ⟨?_, ?_, ?_⟩ <;> rw [process_default] <;> rfl

/-- C10: the whitelist short-circuit precedes the redis-client existence
check and every store access: a whitelisted request resolves with
`{status: 200}` for every value of the client flag and of the store
availability flag, and for every store state, which it returns unchanged. -/
theorem c10_whitelist_before_client (timeframe limit : Int) (ns : String)
    (wl : List String) (routes : List Route) (req : Request)
    (hw : whitelisted wl req = true) :
    ∀ (hasClient storeOk : Bool) (p : Int) (st : Store),
      process ⟨timeframe, limit, ns, wl, routes⟩ req hasClient storeOk p st =
        some (bareResponse, st) := by
  intro hasClient storeOk p st
  simp [process, hw]

/-- C10 witness: a whitelisted request with the redis client absent and the
store unreachable still resolves bare, leaving the store alone. -/
theorem c10_whitelist_before_client_witness :
    process ⟨60, 100, "rate-limit", ["192.168.20.20"], []⟩
      ⟨some "192.168.20.20", none, none, "GET"⟩ false false 5 ⟨some (.num 42)⟩ =
      some (bareResponse, ⟨some (.num 42)⟩) :=
  c10_whitelist_before_client 60 100 "rate-limit" ["192.168.20.20"] []
    ⟨some "192.168.20.20", none, none, "GET"⟩ (by decide) false false 5
    ⟨some (.num 42)⟩

/-- C1 counterexample: at `limit = 1` the clauses of the claim conflict and
the code follows the first-call clause: the first call (so the i-th call
with i = 1 ≥ limit, for which the claim demands status 429 and remaining 0)
creates the window and returns status 200. -/
theorem c1_limit_one_cex :
    callSeq 1 60 "1.2.3.4" (fun _ => 1500) 0 =
      some (⟨200, some 1, some 60, some 0, none, false⟩, ⟨some (.num 1)⟩) ∧
    (200 : Nat) ≠ 429 := by
  exact ⟨rfl, by decide⟩

/-- C1 amended: for `limit ≥ 2`, for every key with no prior window and
every sequence of `process` calls with unchanged identity within one window
(every PTTL reply `f j` positive, so no expiry occurs), the (i+1)-st call
returns status 200 with `remaining = limit - (i+1)` while `i+1 < limit`,
and status 429 with `remaining = 0` (and the counter frozen at `limit - 1`)
once `i+1 ≥ limit`; in particular the first call returns status 200 and
`remaining = limit - 1`. -/
theorem c1_sequence (limit timeframe : Int) (ip : String) (f : Nat → Int)
    (hl : 2 ≤ limit) (hf : ∀ j, 0 < f j) (i : Nat) :
    ((i : Int) + 1 < limit →
      callSeq limit timeframe ip f i =
        some (⟨200, some limit, some timeframe, some (limit - ((i : Int) + 1)), none,
          false⟩, ⟨some (.num ((i : Int) + 1))⟩)) ∧
    (limit ≤ (i : Int) + 1 →
      callSeq limit timeframe ip f i =
        some (⟨429, some limit, some timeframe, some 0, some (ceilDivInt (f i) 1000),
          true⟩, ⟨some (.num (limit - 1))⟩)) := by
  induction i with
  | zero =>
    refine ⟨fun _ => ?_, fun h => absurd h (by push_cast; omega)⟩
    show process (defaultConfig limit timeframe) (plainReq ip) true true (f 0) ⟨none⟩ = _
    rw [process_default, processCount_absent]
    norm_num
  | succ n ih =>
    have hcast : ((n + 1 : Nat) : Int) = (n : Int) + 1 := by push_cast; ring
    by_cases hA : (n : Int) + 2 < limit
    · -- strictly below the limit: the store held n+1 and is incremented
      have h1 := ih.1 (by omega)
      have hfull : callSeq limit timeframe ip f (n + 1) =
          some (⟨200, some limit, some timeframe, some (limit - ((n : Int) + 1 + 1)), none,
            false⟩, ⟨some (.num ((n : Int) + 1 + 1))⟩) := by
        show (match callSeq limit timeframe ip f n with
          | some (_, st) =>
            process (defaultConfig limit timeframe) (plainReq ip) true true (f (n + 1)) st
          | none => none) = _
        rw [h1]
        show process (defaultConfig limit timeframe) (plainReq ip) true true (f (n + 1))
          ⟨some (.num ((n : Int) + 1))⟩ = _
        rw [process_default,
          processCount_under limit timeframe (f (n + 1)) ((n : Int) + 1)
            (by omega) (by omega) (by omega)]
        have hmax : max (limit - ((n : Int) + 1 + 1)) 0 = limit - ((n : Int) + 1 + 1) := by
          omega
        rw [hmax]
      refine ⟨fun _ => ?_, fun h => ?_⟩
      · rw [hcast]
        exact hfull
      · rw [hcast] at h
        omega
    · -- at or over the limit: the call is rejected, the store untouched
      have hstate : callSeq limit timeframe ip f n =
          some (⟨if (n : Int) + 1 < limit then 200 else 429, some limit, some timeframe,
            if (n : Int) + 1 < limit then some (limit - ((n : Int) + 1)) else some 0,
            if (n : Int) + 1 < limit then none else some (ceilDivInt (f n) 1000),
            if (n : Int) + 1 < limit then false else true⟩,
            ⟨some (.num (limit - 1))⟩) := by
        by_cases hB : (n : Int) + 1 < limit
        · have h1 := ih.1 hB
          rw [h1]
          have hval : (n : Int) + 1 = limit - 1 := by omega
          simp [hB, hval]
        · have h2 := ih.2 (by omega)
          rw [h2]
          simp [hB]
      have hfull : callSeq limit timeframe ip f (n + 1) =
          some (⟨429, some limit, some timeframe, some 0,
            some (ceilDivInt (f (n + 1)) 1000), true⟩, ⟨some (.num (limit - 1))⟩) := by
        show (match callSeq limit timeframe ip f n with
          | some (_, st) =>
            process (defaultConfig limit timeframe) (plainReq ip) true true (f (n + 1)) st
          | none => none) = _
        rw [hstate]
        show process (defaultConfig limit timeframe) (plainReq ip) true true (f (n + 1))
          ⟨some (.num (limit - 1))⟩ = _
        rw [process_default,
          processCount_over limit timeframe (f (n + 1)) (limit - 1)
            (by omega) (by omega) (hf (n + 1))]
        have hmax : max (limit - (limit - 1 + 1)) 0 = 0 := by omega
        rw [hmax]
      refine ⟨fun h => ?_, fun _ => ?_⟩
      · rw [hcast] at h
        omega
      · rw [hfull]

/-- C1 witness: limit 3 — the second call returns 200 with remaining 1 and
the counter at 2, and the third call returns 429 with remaining 0. -/
theorem c1_sequence_witness :
    callSeq 3 60 "1.2.3.4" (fun _ => 1500) 1 =
      some (⟨200, some 3, some 60, some 1, none, false⟩, ⟨some (.num 2)⟩) ∧
    callSeq 3 60 "1.2.3.4" (fun _ => 1500) 2 =
      some (⟨429, some 3, some 60, some 0, some (ceilDivInt 1500 1000), true⟩,
        ⟨some (.num 2)⟩) := by
  constructor
  · have h := (c1_sequence 3 60 "1.2.3.4" (fun _ => 1500) (by omega)
      (fun _ => by norm_num) 1).1 (by norm_num)
    simpa using h
  · have h := (c1_sequence 3 60 "1.2.3.4" (fun _ => 1500) (by omega)
      (fun _ => by norm_num) 2).2 (by norm_num)
    simpa using h

end RateLimitRedis
